import Mathlib

/-!
Verification of `scripts/dependencies/dependencies.go` from the cri-o
repository: the dependency-report generation and publication pipeline.

The Go program is a single sequential function `run()` driven by external
effects (filesystem, environment variables, external commands, git).  We
embed it shallowly: an `Env` record is the oracle giving the outcome of
every external call, a `World` record is the observable state (current git
branch, the local report file, the in-repo report file, staged files,
commits, pushes, the temporary file), and `run` threads the world while
accumulating a trace of the external operations it attempts, returning an
`Outcome` mirroring how the process terminates.

Modelling notes:
* Go string slicing `head[:7]` is over bytes; the hashes involved are ASCII
  hex strings, so we model it over the character list (`goSliceTo`) and
  model the out-of-bounds panic when the string is shorter than 7.
* `filepath.Join` is modelled for paths without redundant separators,
  matching Go on the inputs this program produces (`Join "" f = f`).
* `errors.Wrap` messages are modelled by the wrapping context string alone.
-/

/-- Constant `branch` from the source: the publishing branch. -/
def ghPagesBranch : String := "gh-pages"

/-- Constant `file` from the source: the canonical report file name. -/
def reportFileName : String := "dependencies.md"

/-- Constant `tokenKey` from the source: the credential variable name. -/
def tokenKey : String := "GITHUB_TOKEN"

/-- Go `filepath.Join` restricted to the clean paths this program uses. -/
def filepathJoin (dir name : String) : String :=
  if dir = "" then name else dir ++ "/" ++ name

/-- Go string slice `s[:n]` over characters; `none` models the slice panic
when the string is shorter than `n`. -/
def goSliceTo (s : String) (n : Nat) : Option String :=
  if n ≤ s.length then some (String.mk (s.data.take n)) else none

/-- Oracle for every external call made by `run`: Booleans say whether the
call succeeds, strings are the values the successful calls return. -/
structure Env where
  outputPath : String
  mkdirOk : Bool
  setenvOk : Bool
  listOk : Bool
  modulesOut : String
  createTempOk : Bool
  tmpName : String
  writeTempOk : Bool
  outdatedOk : Bool
  outdatedOut : String
  allOk : Bool
  allOut : String
  openRepoOk : Bool
  headOk : Bool
  head : String
  now : String
  writeLocalOk : Bool
  token : Option String
  currentBranchOk : Bool
  checkoutOk : Bool
  writeRepoOk : Bool
  addOk : Bool
  commitOk : Bool
  pushOk : Bool
  restoreOk : Bool
  deriving DecidableEq

/-- Observable state threaded through the pipeline. -/
structure World where
  branch : String
  localFile : Option String
  repoFile : Option String
  stagedFiles : List String
  commits : List String
  pushedBranches : List String
  tempFile : Option (String × String)
  deriving DecidableEq

/-- One attempted external operation, recorded in order of invocation. -/
inductive Event where
  | mkOutputDir (path : String)
  | setGoSumDbOff
  | listModules
  | createTempFile
  | writeTempFile (content : String)
  | fmtOutdated
  | fmtAll
  | removeLocalFile (path : String)
  | openRepo
  | readHead
  | writeLocalFile (path content : String)
  | lookupToken
  | readCurrentBranch
  | checkout (b : String)
  | writeRepoFile (path content : String)
  | gitAdd (f : String)
  | gitCommit (msg : String)
  | gitPush (b : String)
  deriving DecidableEq

/-- How the process terminates: `ok` is a nil return from `run` (exit 0),
`fatal` is a non-nil return (logrus.Fatalf, nonzero exit), `exitedZero` is
the explicit `os.Exit(0)` on the missing-credential path, `outOfRange` is
the `head[:7]` slice panic. -/
inductive Outcome where
  | ok
  | fatal (msg : String)
  | exitedZero
  | outOfRange
  deriving DecidableEq

/-- Result of the generation phase (everything before the credential
check): the rendered content on success. -/
inductive GenOut where
  | success (content : String)
  | failure (msg : String)
  | oob
  deriving DecidableEq

/-- Result of a full run. -/
structure RunResult where
  trace : List Event
  world : World
  outcome : Outcome
  deriving DecidableEq

/-- The fixed markdown template of the report, exactly the `fmt.Sprintf`
format string of the source with its five arguments spliced in. -/
def renderReport (ts short full outdated all : String) : String :=
  "# CRI-O Dependency Report\n\n_Generated on " ++ ts ++ " for commit [" ++
  short ++ "][0]._\n\n[0]: https://github.com/cri-o/cri-o/commit/" ++ full ++
  "\n\n## Outdated Dependencies\n\n" ++ outdated ++
  "\n\n## All Dependencies\n\n" ++ all ++ "\n"

/-- Generation phase of `run`: lines 38-115 of the source — ensure the
output path, disable GOSUMDB, list modules into a temp file, run the
formatter twice, remove any pre-existing local report, open the repo, read
HEAD, render the report and write it to `<output-path>/dependencies.md`. -/
def generate (e : Env) (w : World) : List Event × World × GenOut :=
  if !e.mkdirOk then
    ([.mkOutputDir e.outputPath], w, .failure "create output path")
  else if !e.setenvOk then
    ([.mkOutputDir e.outputPath, .setGoSumDbOff], w, .failure "disabling GOSUMDB")
  else if !e.listOk then
    ([.mkOutputDir e.outputPath, .setGoSumDbOff, .listModules], w,
      .failure "listing go modules")
  else if !e.createTempOk then
    ([.mkOutputDir e.outputPath, .setGoSumDbOff, .listModules, .createTempFile],
      w, .failure "creating temp file")
  else
    let w1 : World := { w with tempFile := some (e.tmpName, "") }
    if !e.writeTempOk then
      ([.mkOutputDir e.outputPath, .setGoSumDbOff, .listModules, .createTempFile,
        .writeTempFile e.modulesOut], w1, .failure "writing to temp file")
    else
      let w2 : World := { w1 with tempFile := some (e.tmpName, e.modulesOut) }
      if !e.outdatedOk then
        ([.mkOutputDir e.outputPath, .setGoSumDbOff, .listModules, .createTempFile,
          .writeTempFile e.modulesOut, .fmtOutdated], w2,
          .failure "retrieving outdated dependencies")
      else if !e.allOk then
        ([.mkOutputDir e.outputPath, .setGoSumDbOff, .listModules, .createTempFile,
          .writeTempFile e.modulesOut, .fmtOutdated, .fmtAll], w2,
          .failure "retrieving all dependencies")
      else
        let outFile := filepathJoin e.outputPath reportFileName
        let w3 : World := { w2 with localFile := none }
        if !e.openRepoOk then
          ([.mkOutputDir e.outputPath, .setGoSumDbOff, .listModules, .createTempFile,
            .writeTempFile e.modulesOut, .fmtOutdated, .fmtAll,
            .removeLocalFile outFile, .openRepo], w3, .failure "open local repo")
        else if !e.headOk then
          ([.mkOutputDir e.outputPath, .setGoSumDbOff, .listModules, .createTempFile,
            .writeTempFile e.modulesOut, .fmtOutdated, .fmtAll,
            .removeLocalFile outFile, .openRepo, .readHead], w3,
            .failure "get repository HEAD")
        else
          match goSliceTo e.head 7 with
          | none =>
            ([.mkOutputDir e.outputPath, .setGoSumDbOff, .listModules, .createTempFile,
              .writeTempFile e.modulesOut, .fmtOutdated, .fmtAll,
              .removeLocalFile outFile, .openRepo, .readHead], w3, .oob)
          | some short =>
            let content := renderReport e.now short e.head e.outdatedOut e.allOut
            if !e.writeLocalOk then
              ([.mkOutputDir e.outputPath, .setGoSumDbOff, .listModules, .createTempFile,
                .writeTempFile e.modulesOut, .fmtOutdated, .fmtAll,
                .removeLocalFile outFile, .openRepo, .readHead,
                .writeLocalFile outFile content], w3, .failure "writing report")
            else
              ([.mkOutputDir e.outputPath, .setGoSumDbOff, .listModules, .createTempFile,
                .writeTempFile e.modulesOut, .fmtOutdated, .fmtAll,
                .removeLocalFile outFile, .openRepo, .readHead,
                .writeLocalFile outFile content],
                { w3 with localFile := some content }, .success content)

/-- The deferred `repo.Checkout(currentBranch)`: always attempted; on
success the branch is restored, its error is assigned to the discarded
local `err`. -/
def restoreBranch (e : Env) (orig : String) (w : World) : List Event × World :=
  ([.checkout orig], if e.restoreOk then { w with branch := orig } else w)

/-- Steps of the publisher after the `gh-pages` checkout succeeded: write
the canonical file, stage it, commit with the fixed message, push. Each
failure aborts the remaining steps. -/
def publishAfterCheckout (e : Env) (w : World) (content : String) :
    List Event × World × Outcome :=
  if !e.writeRepoOk then
    ([.writeRepoFile reportFileName content], w, .fatal "write content to file")
  else
    let w1 : World := { w with repoFile := some content }
    if !e.addOk then
      ([.writeRepoFile reportFileName content, .gitAdd reportFileName], w1,
        .fatal "add file to repo")
    else
      let w2 : World := { w1 with stagedFiles := reportFileName :: w1.stagedFiles }
      if !e.commitOk then
        ([.writeRepoFile reportFileName content, .gitAdd reportFileName,
          .gitCommit "Update dependency report"], w2, .fatal "commit")
      else
        let w3 : World := { w2 with commits := "Update dependency report" :: w2.commits }
        if !e.pushOk then
          ([.writeRepoFile reportFileName content, .gitAdd reportFileName,
            .gitCommit "Update dependency report", .gitPush ghPagesBranch], w3,
            .fatal "push changes")
        else
          ([.writeRepoFile reportFileName content, .gitAdd reportFileName,
            .gitCommit "Update dependency report", .gitPush ghPagesBranch],
            { w3 with pushedBranches := ghPagesBranch :: w3.pushedBranches }, .ok)

/-- Publication phase of `run`: lines 117-152 of the source — look up the
credential (exit 0 when unset or empty), capture the current branch, check
out `gh-pages`, then the post-checkout steps followed by the deferred
restoration of the captured branch. -/
def publish (e : Env) (w : World) (content : String) :
    List Event × World × Outcome :=
  match e.token with
  | none => ([.lookupToken], w, .exitedZero)
  | some t =>
    if t = "" then ([.lookupToken], w, .exitedZero)
    else if !e.currentBranchOk then
      ([.lookupToken, .readCurrentBranch], w, .fatal "get current branch")
    else
      let orig := w.branch
      if !e.checkoutOk then
        ([.lookupToken, .readCurrentBranch, .checkout ghPagesBranch], w,
          .fatal ("checkout " ++ ghPagesBranch ++ " branch"))
      else
        let w1 : World := { w with branch := ghPagesBranch }
        let step := publishAfterCheckout e w1 content
        let rest := restoreBranch e orig step.2.1
        ([.lookupToken, .readCurrentBranch, .checkout ghPagesBranch] ++
          step.1 ++ rest.1, rest.2, step.2.2)

/-- The whole `run` function: generation phase, then (on success of every
generation step) the publication phase. -/
def run (e : Env) (w : World) : RunResult :=
  let gen := generate e w
  match gen.2.2 with
  | .failure m => ⟨gen.1, gen.2.1, .fatal m⟩
  | .oob => ⟨gen.1, gen.2.1, .outOfRange⟩
  | .success c =>
    let pub := publish e gen.2.1 c
    ⟨gen.1 ++ pub.1, pub.2.1, pub.2.2⟩

/-- Baseline environment where every external call succeeds. -/
def envAllOk : Env :=
  { outputPath := "out", mkdirOk := true, setenvOk := true, listOk := true,
    modulesOut := "mods", createTempOk := true, tmpName := "modules-1",
    writeTempOk := true, outdatedOk := true, outdatedOut := "OUTDATED",
    allOk := true, allOut := "ALL", openRepoOk := true, headOk := true,
    head := "abc1234def", now := "Mon, 02 Jan 2006 15:04:05 MST",
    writeLocalOk := true, token := some "tok", currentBranchOk := true,
    checkoutOk := true, writeRepoOk := true, addOk := true, commitOk := true,
    pushOk := true, restoreOk := true }

/-- Baseline starting world on branch `main` with a stale report present. -/
def worldMain : World :=
  { branch := "main", localFile := some "old", repoFile := none,
    stagedFiles := [], commits := [], pushedBranches := [], tempFile := none }

/-- Environment identical to `envAllOk` except that HEAD is shorter than 7
characters. -/
def envShortHead : Env := { envAllOk with head := "abc" }

/-- Environment identical to `envAllOk` except that the deferred restoring
checkout of the original branch fails. -/
def envRestoreFail : Env := { envAllOk with restoreOk := false }

/-- Environment identical to `envAllOk` except that `GITHUB_TOKEN` is set
to the empty string. -/
def envEmptyToken : Env := { envAllOk with token := some "" }

/-- Environment with an empty `GITHUB_TOKEN` where the local write fails. -/
def envEmptyTokenWriteFail : Env :=
  { envAllOk with token := some "", writeLocalOk := false }

/-- Environment where the mode-A (outdated) formatter invocation fails. -/
def envFmtAFail : Env := { envAllOk with outdatedOk := false }

/-- Environment where the commit step fails. -/
def envCommitFail : Env := { envAllOk with commitOk := false }

/-- Predicate selecting the two report-formatter invocations. -/
def Event.isFmtEvent : Event → Bool
  | .fmtOutdated => true
  | .fmtAll => true
  | _ => false

/-- Predicate selecting the operations that mutate the git repository. -/
def Event.isRepoMutation : Event → Bool
  | .checkout _ => true
  | .writeRepoFile _ _ => true
  | .gitAdd _ => true
  | .gitCommit _ => true
  | .gitPush _ => true
  | _ => false

/-- Predicate selecting the operations of the publication phase, including
the credential lookup and branch read. -/
def Event.isPublisherEvent : Event → Bool
  | .lookupToken => true
  | .readCurrentBranch => true
  | .checkout _ => true
  | .writeRepoFile _ _ => true
  | .gitAdd _ => true
  | .gitCommit _ => true
  | .gitPush _ => true
  | _ => false

/-- The rendered report of a run whose generation phase succeeds. -/
def reportContent (e : Env) : String :=
  renderReport e.now (String.mk (e.head.data.take 7)) e.head e.outdatedOut
    e.allOut

/-- The world after a successful generation phase: the report is written
locally and the temp file holds the module list. -/
def genWorld (e : Env) (w : World) : World :=
  { w with localFile := some (reportContent e),
           tempFile := some (e.tmpName, e.modulesOut) }

/-- The full event trace of a successful generation phase. -/
def genTrace (e : Env) : List Event :=
  [.mkOutputDir e.outputPath, .setGoSumDbOff, .listModules, .createTempFile,
   .writeTempFile e.modulesOut, .fmtOutdated, .fmtAll,
   .removeLocalFile (filepathJoin e.outputPath reportFileName), .openRepo,
   .readHead,
   .writeLocalFile (filepathJoin e.outputPath reportFileName)
     (reportContent e)]

/-- Override exactly the publication-related oracle fields of an
environment: the credential and the outcomes of the publisher steps. -/
def setPublication (e : Env) (tok : Option String)
    (cb co wr ad cm pu rs : Bool) : Env :=
  { e with token := tok, currentBranchOk := cb, checkoutOk := co,
           writeRepoOk := wr, addOk := ad, commitOk := cm, pushOk := pu,
           restoreOk := rs }

/-- Every step of the generation phase succeeds, so the pipeline reaches the
credential check. -/
def GenOk (e : Env) : Prop :=
  e.mkdirOk = true ∧ e.setenvOk = true ∧ e.listOk = true ∧
  e.createTempOk = true ∧ e.writeTempOk = true ∧ e.outdatedOk = true ∧
  e.allOk = true ∧ e.openRepoOk = true ∧ e.headOk = true ∧
  e.writeLocalOk = true

theorem publishAfterCheckout_localFile (e : Env) (w : World) (c : String) :
    (publishAfterCheckout e w c).2.1.localFile = w.localFile := by
  simp only [publishAfterCheckout]
  repeat' split
  all_goals rfl

theorem publishAfterCheckout_tempFile (e : Env) (w : World) (c : String) :
    (publishAfterCheckout e w c).2.1.tempFile = w.tempFile := by
  simp only [publishAfterCheckout]
  repeat' split
  all_goals rfl

theorem publish_localFile (e : Env) (w : World) (c : String) :
    (publish e w c).2.1.localFile = w.localFile := by
  simp only [publish, restoreBranch]
  cases e.token with
  | none => rfl
  | some t =>
    repeat' split
    all_goals simp [publishAfterCheckout_localFile]

theorem publish_tempFile (e : Env) (w : World) (c : String) :
    (publish e w c).2.1.tempFile = w.tempFile := by
  simp only [publish, restoreBranch]
  cases e.token with
  | none => rfl
  | some t =>
    repeat' split
    all_goals simp [publishAfterCheckout_tempFile]

theorem generate_out_genOk (e : Env) (w : World) (h : GenOk e)
    (h7 : 7 ≤ e.head.length) :
    (generate e w).2.2 =
      .success (renderReport e.now (String.mk (e.head.data.take 7)) e.head
        e.outdatedOut e.allOut) := by
  obtain ⟨h1, h2, h3, h4, h5, h6, ha, h8, h9, h10⟩ := h
  simp [generate, goSliceTo, h1, h2, h3, h4, h5, h6, ha, h8, h9, h10, h7]

theorem generate_localFile_genOk (e : Env) (w : World) (h : GenOk e)
    (h7 : 7 ≤ e.head.length) :
    (generate e w).2.1.localFile =
      some (renderReport e.now (String.mk (e.head.data.take 7)) e.head
        e.outdatedOut e.allOut) := by
  obtain ⟨h1, h2, h3, h4, h5, h6, ha, h8, h9, h10⟩ := h
  simp [generate, goSliceTo, h1, h2, h3, h4, h5, h6, ha, h8, h9, h10, h7]

theorem generate_trace_genOk (e : Env) (w : World) (h : GenOk e)
    (h7 : 7 ≤ e.head.length) :
    (generate e w).1 =
      [.mkOutputDir e.outputPath, .setGoSumDbOff, .listModules, .createTempFile,
       .writeTempFile e.modulesOut, .fmtOutdated, .fmtAll,
       .removeLocalFile (filepathJoin e.outputPath reportFileName), .openRepo,
       .readHead,
       .writeLocalFile (filepathJoin e.outputPath reportFileName)
         (renderReport e.now (String.mk (e.head.data.take 7)) e.head
           e.outdatedOut e.allOut)] := by
  obtain ⟨h1, h2, h3, h4, h5, h6, ha, h8, h9, h10⟩ := h
  simp [generate, goSliceTo, h1, h2, h3, h4, h5, h6, ha, h8, h9, h10, h7]

instance (e : Env) : Decidable (GenOk e) := by
  unfold GenOk
  infer_instance

theorem generate_not_oob (e : Env) (w : World) (h7 : 7 ≤ e.head.length) :
    (generate e w).2.2 ≠ .oob := by
  have hs : goSliceTo e.head 7 = some (String.mk (e.head.data.take 7)) := by
    simp [goSliceTo, h7]
  by_cases h1 : e.mkdirOk
  case neg => simp [generate, h1]
  by_cases h2 : e.setenvOk
  case neg => simp [generate, h1, h2]
  by_cases h3 : e.listOk
  case neg => simp [generate, h1, h2, h3]
  by_cases h4 : e.createTempOk
  case neg => simp [generate, h1, h2, h3, h4]
  by_cases h5 : e.writeTempOk
  case neg => simp [generate, h1, h2, h3, h4, h5]
  by_cases h6 : e.outdatedOk
  case neg => simp [generate, h1, h2, h3, h4, h5, h6]
  by_cases ha : e.allOk
  case neg => simp [generate, h1, h2, h3, h4, h5, h6, ha]
  by_cases h8 : e.openRepoOk
  case neg => simp [generate, h1, h2, h3, h4, h5, h6, ha, h8]
  by_cases h9 : e.headOk
  case neg => simp [generate, h1, h2, h3, h4, h5, h6, ha, h8, h9]
  by_cases h10 : e.writeLocalOk
  case neg => simp [generate, hs, h1, h2, h3, h4, h5, h6, ha, h8, h9, h10]
  simp [generate, hs, h1, h2, h3, h4, h5, h6, ha, h8, h9, h10]

theorem publishAfterCheckout_not_oob (e : Env) (w : World) (c : String) :
    (publishAfterCheckout e w c).2.2 ≠ .outOfRange := by
  intro hcon
  simp only [publishAfterCheckout] at hcon
  repeat' split at hcon
  all_goals simp_all

theorem publish_not_oob (e : Env) (w : World) (c : String) :
    (publish e w c).2.2 ≠ .outOfRange := by
  intro hcon
  simp only [publish, restoreBranch] at hcon
  cases htok : e.token with
  | none => rw [htok] at hcon; simp_all
  | some t =>
    rw [htok] at hcon
    repeat' split at hcon
    all_goals first
      | exact publishAfterCheckout_not_oob e _ c hcon
      | simp_all

/-- Claim C5: for every creatable output path and all given timestamp, HEAD
hash and formatter fragments, when the pipeline reaches the write step the
local file at `<output-path>/dependencies.md` is exactly the fixed markdown
template: title, generation line with timestamp and linked short hash, the
Outdated Dependencies section with fragment A, and the All Dependencies
section with fragment B, in that order. -/
theorem local_report_content (e : Env) (w : World) (h : GenOk e)
    (h7 : 7 ≤ e.head.length) :
    (run e w).world.localFile =
      some ("# CRI-O Dependency Report\n\n_Generated on " ++ e.now ++
        " for commit [" ++ String.mk (e.head.data.take 7) ++
        "][0]._\n\n[0]: https://github.com/cri-o/cri-o/commit/" ++ e.head ++
        "\n\n## Outdated Dependencies\n\n" ++ e.outdatedOut ++
        "\n\n## All Dependencies\n\n" ++ e.allOut ++ "\n") ∧
    Event.writeLocalFile (filepathJoin e.outputPath reportFileName)
      (renderReport e.now (String.mk (e.head.data.take 7)) e.head
        e.outdatedOut e.allOut) ∈ (run e w).trace := by
  have hout := generate_out_genOk e w h h7
  have hloc := generate_localFile_genOk e w h h7
  have htr := generate_trace_genOk e w h h7
  simp only [run]
  rw [hout]
  constructor
  · simp only []
    rw [publish_localFile, hloc, renderReport]
  · simp only []
    rw [List.mem_append, htr]
    left
    simp

/-- Claim C5 witness: the all-success environment produces exactly the
templated report. -/
theorem local_report_content_witness :
    (GenOk envAllOk ∧ 7 ≤ envAllOk.head.length) ∧
    (run envAllOk worldMain).world.localFile =
      some ("# CRI-O Dependency Report\n\n_Generated on " ++ envAllOk.now ++
        " for commit [" ++ String.mk (envAllOk.head.data.take 7) ++
        "][0]._\n\n[0]: https://github.com/cri-o/cri-o/commit/" ++ envAllOk.head ++
        "\n\n## Outdated Dependencies\n\n" ++ envAllOk.outdatedOut ++
        "\n\n## All Dependencies\n\n" ++ envAllOk.allOut ++ "\n") :=
  ⟨⟨by decide, by decide⟩,
    (local_report_content envAllOk worldMain (by decide) (by decide)).1⟩

/-- Claim C6: the short hash embedded in the generation line of the
rendered report consists of exactly the first 7 characters of the full
HEAD hash, and the commit link in the report cites the full hash. -/
theorem short_hash_is_first_seven (e : Env) (w : World) (h : GenOk e)
    (h7 : 7 ≤ e.head.length) :
    ∃ s : String, s.data = e.head.data.take 7 ∧ s.length = 7 ∧
      (run e w).world.localFile =
        some ("# CRI-O Dependency Report\n\n_Generated on " ++ e.now ++
          " for commit [" ++ s ++
          "][0]._\n\n[0]: https://github.com/cri-o/cri-o/commit/" ++ e.head ++
          "\n\n## Outdated Dependencies\n\n" ++ e.outdatedOut ++
          "\n\n## All Dependencies\n\n" ++ e.allOut ++ "\n") := by
  refine ⟨String.mk (e.head.data.take 7), rfl, ?_, ?_⟩
  · simp only [String.length]
    rw [List.length_take]
    exact Nat.min_eq_left h7
  · exact (local_report_content e w h h7).1

/-- Claim C6 witness: with the 10-character hash `abc1234def` the embedded
short hash is `abc1234`. -/
theorem short_hash_is_first_seven_witness :
    (GenOk envAllOk ∧ 7 ≤ envAllOk.head.length) ∧
    (∃ s : String, s.data = envAllOk.head.data.take 7 ∧ s.length = 7 ∧
      (run envAllOk worldMain).world.localFile =
        some ("# CRI-O Dependency Report\n\n_Generated on " ++ envAllOk.now ++
          " for commit [" ++ s ++
          "][0]._\n\n[0]: https://github.com/cri-o/cri-o/commit/" ++ envAllOk.head ++
          "\n\n## Outdated Dependencies\n\n" ++ envAllOk.outdatedOut ++
          "\n\n## All Dependencies\n\n" ++ envAllOk.allOut ++ "\n")) :=
  ⟨⟨by decide, by decide⟩,
    short_hash_is_first_seven envAllOk worldMain (by decide) (by decide)⟩

theorem run_eq_failure (e : Env) (w : World) (m : String)
    (hg : (generate e w).2.2 = .failure m) :
    run e w = ⟨(generate e w).1, (generate e w).2.1, .fatal m⟩ := by
  simp only [run]
  rw [hg]

theorem run_eq_oob (e : Env) (w : World)
    (hg : (generate e w).2.2 = .oob) :
    run e w = ⟨(generate e w).1, (generate e w).2.1, .outOfRange⟩ := by
  simp only [run]
  rw [hg]

theorem run_eq_success (e : Env) (w : World) (c : String)
    (hg : (generate e w).2.2 = .success c) :
    run e w = ⟨(generate e w).1 ++ (publish e (generate e w).2.1 c).1,
      (publish e (generate e w).2.1 c).2.1,
      (publish e (generate e w).2.1 c).2.2⟩ := by
  simp only [run]
  rw [hg]

theorem generate_genOk_eq (e : Env) (w : World) (h : GenOk e)
    (h7 : 7 ≤ e.head.length) :
    generate e w = (genTrace e, genWorld e w, .success (reportContent e)) := by
  obtain ⟨h1, h2, h3, h4, h5, h6, ha, h8, h9, h10⟩ := h
  have hs : goSliceTo e.head 7 = some (String.mk (e.head.data.take 7)) := by
    simp [goSliceTo, h7]
  simp [generate, hs, h1, h2, h3, h4, h5, h6, ha, h8, h9, h10, genTrace,
    reportContent, genWorld]

theorem run_genOk_eq (e : Env) (w : World) (h : GenOk e)
    (h7 : 7 ≤ e.head.length) :
    run e w = ⟨genTrace e ++ (publish e (genWorld e w) (reportContent e)).1,
      (publish e (genWorld e w) (reportContent e)).2.1,
      (publish e (genWorld e w) (reportContent e)).2.2⟩ := by
  simp only [run, generate_genOk_eq e w h h7]

theorem publish_emptyToken (e : Env) (w : World) (c : String)
    (htok : e.token = none ∨ e.token = some "") :
    publish e w c = ([.lookupToken], w, .exitedZero) := by
  rcases htok with h | h <;> simp [publish, h]

/-- Claim C9: slicing the short hash is guarded by the length of HEAD: with
every step before the slice succeeding and a HEAD shorter than 7 characters
the run ends in the out-of-range slice panic, while for a HEAD of at least
7 characters the panic branch is unreachable in every environment. -/
theorem head_slice_guard :
    (∀ e w, 7 ≤ e.head.length → (run e w).outcome ≠ .outOfRange) ∧
    (∀ e w, GenOk e → e.head.length < 7 → (run e w).outcome = .outOfRange) := by
  constructor
  · intro e w h7 hcon
    cases hg : (generate e w).2.2 with
    | failure m =>
      rw [run_eq_failure e w m hg] at hcon
      exact absurd hcon (by simp)
    | oob => exact generate_not_oob e w h7 hg
    | success c =>
      rw [run_eq_success e w c hg] at hcon
      exact publish_not_oob e _ c hcon
  · intro e w h hlt
    obtain ⟨h1, h2, h3, h4, h5, h6, ha, h8, h9, h10⟩ := h
    have hs : goSliceTo e.head 7 = none := by
      unfold goSliceTo
      rw [if_neg (by omega)]
    simp [run, generate, hs, h1, h2, h3, h4, h5, h6, ha, h8, h9]

/-- Claim C9 witness: a 10-character HEAD never panics; the 3-character HEAD
`abc` panics. -/
theorem head_slice_guard_witness :
    (7 ≤ envAllOk.head.length ∧ (run envAllOk worldMain).outcome ≠ .outOfRange) ∧
    (GenOk envShortHead ∧ envShortHead.head.length < 7 ∧
      (run envShortHead worldMain).outcome = .outOfRange) :=
  ⟨⟨by decide, head_slice_guard.1 envAllOk worldMain (by decide)⟩,
   by decide, by decide,
   head_slice_guard.2 envShortHead worldMain (by decide) (by decide)⟩

theorem event_not_publisher (ev : Event) (h : ev.isPublisherEvent = false) :
    ev.isRepoMutation = false ∧ ev ≠ Event.lookupToken := by
  cases ev <;> simp_all [Event.isPublisherEvent, Event.isRepoMutation]

theorem event_publisher_not_fmt (ev : Event) (h : ev.isPublisherEvent = true) :
    ev.isFmtEvent = false := by
  cases ev <;> simp_all [Event.isPublisherEvent, Event.isFmtEvent]

theorem publishAfterCheckout_all (e : Env) (w : World) (c : String) :
    (publishAfterCheckout e w c).1.all Event.isPublisherEvent = true := by
  simp only [publishAfterCheckout]
  repeat' split
  all_goals simp [Event.isPublisherEvent]

theorem publish_all (e : Env) (w : World) (c : String) :
    (publish e w c).1.all Event.isPublisherEvent = true := by
  simp only [publish, restoreBranch]
  cases e.token with
  | none => simp [Event.isPublisherEvent]
  | some t =>
    repeat' split
    all_goals simp [Event.isPublisherEvent, List.all_append,
      publishAfterCheckout_all]

theorem publish_events (e : Env) (w : World) (c : String) :
    ∀ ev ∈ (publish e w c).1, ev.isPublisherEvent = true := by
  intro ev hev
  exact List.all_eq_true.mp (publish_all e w c) ev hev

theorem publish_head (e : Env) (w : World) (c : String) :
    (publish e w c).1.head? = some Event.lookupToken := by
  simp only [publish, restoreBranch]
  cases e.token with
  | none => simp
  | some t =>
    repeat' split
    all_goals simp

theorem generate_all_nonpub (e : Env) (w : World) :
    ((generate e w).1.all fun ev => !ev.isPublisherEvent) = true := by
  by_cases h1 : e.mkdirOk
  case neg => simp [generate, h1, Event.isPublisherEvent]
  by_cases h2 : e.setenvOk
  case neg => simp [generate, h1, h2, Event.isPublisherEvent]
  by_cases h3 : e.listOk
  case neg => simp [generate, h1, h2, h3, Event.isPublisherEvent]
  by_cases h4 : e.createTempOk
  case neg => simp [generate, h1, h2, h3, h4, Event.isPublisherEvent]
  by_cases h5 : e.writeTempOk
  case neg => simp [generate, h1, h2, h3, h4, h5, Event.isPublisherEvent]
  by_cases h6 : e.outdatedOk
  case neg => simp [generate, h1, h2, h3, h4, h5, h6, Event.isPublisherEvent]
  by_cases ha : e.allOk
  case neg => simp [generate, h1, h2, h3, h4, h5, h6, ha, Event.isPublisherEvent]
  by_cases h8 : e.openRepoOk
  case neg =>
    simp [generate, h1, h2, h3, h4, h5, h6, ha, h8, Event.isPublisherEvent]
  by_cases h9 : e.headOk
  case neg =>
    simp [generate, h1, h2, h3, h4, h5, h6, ha, h8, h9, Event.isPublisherEvent]
  by_cases hlen : 7 ≤ e.head.length
  case neg =>
    have hs : goSliceTo e.head 7 = none := by
      unfold goSliceTo
      rw [if_neg hlen]
    simp [generate, h1, h2, h3, h4, h5, h6, ha, h8, h9, hs,
      Event.isPublisherEvent]
  have hs : goSliceTo e.head 7 = some (String.mk (e.head.data.take 7)) := by
    simp [goSliceTo, hlen]
  by_cases h10 : e.writeLocalOk
  case neg =>
    simp [generate, h1, h2, h3, h4, h5, h6, ha, h8, h9, h10, hs,
      Event.isPublisherEvent]
  simp [generate, h1, h2, h3, h4, h5, h6, ha, h8, h9, h10, hs,
    Event.isPublisherEvent]

theorem generate_events_not_publisher (e : Env) (w : World) :
    ∀ ev ∈ (generate e w).1, ev.isPublisherEvent = false := by
  intro ev hev
  have := List.all_eq_true.mp (generate_all_nonpub e w) ev hev
  simpa using this

theorem generate_world_shape (e : Env) (w : World) :
    ∃ lf tf, (generate e w).2.1 = { w with localFile := lf, tempFile := tf } := by
  by_cases h1 : e.mkdirOk
  case neg => exact ⟨w.localFile, w.tempFile, by simp [generate, h1]⟩
  by_cases h2 : e.setenvOk
  case neg => exact ⟨w.localFile, w.tempFile, by simp [generate, h1, h2]⟩
  by_cases h3 : e.listOk
  case neg => exact ⟨w.localFile, w.tempFile, by simp [generate, h1, h2, h3]⟩
  by_cases h4 : e.createTempOk
  case neg =>
    exact ⟨w.localFile, w.tempFile, by simp [generate, h1, h2, h3, h4]⟩
  by_cases h5 : e.writeTempOk
  case neg =>
    exact ⟨w.localFile, some (e.tmpName, ""),
      by simp [generate, h1, h2, h3, h4, h5]⟩
  by_cases h6 : e.outdatedOk
  case neg =>
    exact ⟨w.localFile, some (e.tmpName, e.modulesOut),
      by simp [generate, h1, h2, h3, h4, h5, h6]⟩
  by_cases ha : e.allOk
  case neg =>
    exact ⟨w.localFile, some (e.tmpName, e.modulesOut),
      by simp [generate, h1, h2, h3, h4, h5, h6, ha]⟩
  by_cases h8 : e.openRepoOk
  case neg =>
    exact ⟨none, some (e.tmpName, e.modulesOut),
      by simp [generate, h1, h2, h3, h4, h5, h6, ha, h8]⟩
  by_cases h9 : e.headOk
  case neg =>
    exact ⟨none, some (e.tmpName, e.modulesOut),
      by simp [generate, h1, h2, h3, h4, h5, h6, ha, h8, h9]⟩
  by_cases hlen : 7 ≤ e.head.length
  case neg =>
    have hs : goSliceTo e.head 7 = none := by
      unfold goSliceTo
      rw [if_neg hlen]
    exact ⟨none, some (e.tmpName, e.modulesOut),
      by simp [generate, h1, h2, h3, h4, h5, h6, ha, h8, h9, hs]⟩
  have hs : goSliceTo e.head 7 = some (String.mk (e.head.data.take 7)) := by
    simp [goSliceTo, hlen]
  by_cases h10 : e.writeLocalOk
  case neg =>
    exact ⟨none, some (e.tmpName, e.modulesOut),
      by simp [generate, h1, h2, h3, h4, h5, h6, ha, h8, h9, h10, hs]⟩
  exact ⟨some (reportContent e), some (e.tmpName, e.modulesOut),
    by simp [generate, h1, h2, h3, h4, h5, h6, ha, h8, h9, h10, hs,
      reportContent]⟩

theorem generate_repo_frame (e : Env) (w : World) :
    (generate e w).2.1.branch = w.branch ∧
    (generate e w).2.1.commits = w.commits ∧
    (generate e w).2.1.stagedFiles = w.stagedFiles ∧
    (generate e w).2.1.pushedBranches = w.pushedBranches := by
  obtain ⟨lf, tf, hshape⟩ := generate_world_shape e w
  rw [hshape]
  exact ⟨rfl, rfl, rfl, rfl⟩

theorem run_localFile_eq (e : Env) (w : World) :
    (run e w).world.localFile = (generate e w).2.1.localFile := by
  cases hg : (generate e w).2.2 with
  | failure m => rw [run_eq_failure e w m hg]
  | oob => rw [run_eq_oob e w hg]
  | success c =>
    rw [run_eq_success e w c hg]
    exact publish_localFile e _ c

theorem run_tempFile_eq (e : Env) (w : World) :
    (run e w).world.tempFile = (generate e w).2.1.tempFile := by
  cases hg : (generate e w).2.2 with
  | failure m => rw [run_eq_failure e w m hg]
  | oob => rw [run_eq_oob e w hg]
  | success c =>
    rw [run_eq_success e w c hg]
    exact publish_tempFile e _ c

theorem generate_fmt_filter (e : Env) (w : World) :
    (generate e w).1.filter Event.isFmtEvent = [] ∨
    (generate e w).1.filter Event.isFmtEvent = [Event.fmtOutdated] ∨
    (generate e w).1.filter Event.isFmtEvent =
      [Event.fmtOutdated, Event.fmtAll] := by
  by_cases h1 : e.mkdirOk
  case neg => exact Or.inl (by simp [generate, h1, Event.isFmtEvent])
  by_cases h2 : e.setenvOk
  case neg => exact Or.inl (by simp [generate, h1, h2, Event.isFmtEvent])
  by_cases h3 : e.listOk
  case neg => exact Or.inl (by simp [generate, h1, h2, h3, Event.isFmtEvent])
  by_cases h4 : e.createTempOk
  case neg => exact Or.inl (by simp [generate, h1, h2, h3, h4, Event.isFmtEvent])
  by_cases h5 : e.writeTempOk
  case neg =>
    exact Or.inl (by simp [generate, h1, h2, h3, h4, h5, Event.isFmtEvent])
  by_cases h6 : e.outdatedOk
  case neg =>
    exact Or.inr (Or.inl
      (by simp [generate, h1, h2, h3, h4, h5, h6, Event.isFmtEvent]))
  refine Or.inr (Or.inr ?_)
  by_cases ha : e.allOk
  case neg => simp [generate, h1, h2, h3, h4, h5, h6, ha, Event.isFmtEvent]
  by_cases h8 : e.openRepoOk
  case neg => simp [generate, h1, h2, h3, h4, h5, h6, ha, h8, Event.isFmtEvent]
  by_cases h9 : e.headOk
  case neg =>
    simp [generate, h1, h2, h3, h4, h5, h6, ha, h8, h9, Event.isFmtEvent]
  by_cases hlen : 7 ≤ e.head.length
  case neg =>
    have hs : goSliceTo e.head 7 = none := by
      unfold goSliceTo
      rw [if_neg hlen]
    simp [generate, h1, h2, h3, h4, h5, h6, ha, h8, h9, hs, Event.isFmtEvent]
  have hs : goSliceTo e.head 7 = some (String.mk (e.head.data.take 7)) := by
    simp [goSliceTo, hlen]
  by_cases h10 : e.writeLocalOk
  case neg =>
    simp [generate, h1, h2, h3, h4, h5, h6, ha, h8, h9, h10, hs,
      Event.isFmtEvent]
  simp [generate, h1, h2, h3, h4, h5, h6, ha, h8, h9, h10, hs,
    Event.isFmtEvent]

theorem publish_fmt_filter (e : Env) (w : World) (c : String) :
    (publish e w c).1.filter Event.isFmtEvent = [] := by
  rw [List.filter_eq_nil_iff]
  intro a ha
  have hpub := publish_events e w c a ha
  simp [event_publisher_not_fmt a hpub]

/-- Claim C7: the report formatter runs at most twice per run, the mode-A
(outdated) invocation strictly before the mode-B (all) invocation; and when
every earlier step succeeded but the mode-A invocation fails, the run
aborts with the corresponding error and mode B is never attempted. -/
theorem formatter_invocations (e : Env) (w : World) :
    ((run e w).trace.filter Event.isFmtEvent = [] ∨
     (run e w).trace.filter Event.isFmtEvent = [Event.fmtOutdated] ∨
     (run e w).trace.filter Event.isFmtEvent =
       [Event.fmtOutdated, Event.fmtAll]) ∧
    (e.mkdirOk = true → e.setenvOk = true → e.listOk = true →
     e.createTempOk = true → e.writeTempOk = true → e.outdatedOk = false →
     (run e w).outcome = .fatal "retrieving outdated dependencies" ∧
     Event.fmtAll ∉ (run e w).trace) := by
  constructor
  · cases hg : (generate e w).2.2 with
    | failure m =>
      rw [run_eq_failure e w m hg]
      exact generate_fmt_filter e w
    | oob =>
      rw [run_eq_oob e w hg]
      exact generate_fmt_filter e w
    | success c =>
      rw [run_eq_success e w c hg]
      have : ((generate e w).1 ++
          (publish e (generate e w).2.1 c).1).filter Event.isFmtEvent =
          (generate e w).1.filter Event.isFmtEvent := by
        rw [List.filter_append, publish_fmt_filter, List.append_nil]
      rw [show (RunResult.mk ((generate e w).1 ++
          (publish e (generate e w).2.1 c).1)
          (publish e (generate e w).2.1 c).2.1
          (publish e (generate e w).2.1 c).2.2).trace =
          (generate e w).1 ++ (publish e (generate e w).2.1 c).1 from rfl,
        this]
      exact generate_fmt_filter e w
  · intro h1 h2 h3 h4 h5 h6
    have htr : (generate e w).1 =
        [Event.mkOutputDir e.outputPath, Event.setGoSumDbOff,
         Event.listModules, Event.createTempFile,
         Event.writeTempFile e.modulesOut, Event.fmtOutdated] := by
      simp [generate, h1, h2, h3, h4, h5, h6]
    have hout : (generate e w).2.2 =
        .failure "retrieving outdated dependencies" := by
      simp [generate, h1, h2, h3, h4, h5, h6]
    rw [run_eq_failure e w _ hout]
    refine ⟨rfl, ?_⟩
    rw [show (RunResult.mk (generate e w).1 (generate e w).2.1
        (Outcome.fatal "retrieving outdated dependencies")).trace =
        (generate e w).1 from rfl, htr]
    simp

/-- Claim C7 witness: with a failing mode-A formatter the run aborts and the
mode-B invocation is absent from the trace. -/
theorem formatter_invocations_witness :
    ((run envFmtAFail worldMain).trace.filter Event.isFmtEvent = [] ∨
     (run envFmtAFail worldMain).trace.filter Event.isFmtEvent =
       [Event.fmtOutdated] ∨
     (run envFmtAFail worldMain).trace.filter Event.isFmtEvent =
       [Event.fmtOutdated, Event.fmtAll]) ∧
    ((run envFmtAFail worldMain).outcome =
       .fatal "retrieving outdated dependencies" ∧
     Event.fmtAll ∉ (run envFmtAFail worldMain).trace) :=
  ⟨(formatter_invocations envFmtAFail worldMain).1,
   (formatter_invocations envFmtAFail worldMain).2 (by decide) (by decide)
     (by decide) (by decide) (by decide) (by decide)⟩

theorem generate_success_inv (e : Env) (w : World) (c : String)
    (hg : (generate e w).2.2 = .success c) :
    (generate e w).1 = genTrace e ∧ c = reportContent e := by
  by_cases h1 : e.mkdirOk
  case neg => simp [generate, h1] at hg
  by_cases h2 : e.setenvOk
  case neg => simp [generate, h1, h2] at hg
  by_cases h3 : e.listOk
  case neg => simp [generate, h1, h2, h3] at hg
  by_cases h4 : e.createTempOk
  case neg => simp [generate, h1, h2, h3, h4] at hg
  by_cases h5 : e.writeTempOk
  case neg => simp [generate, h1, h2, h3, h4, h5] at hg
  by_cases h6 : e.outdatedOk
  case neg => simp [generate, h1, h2, h3, h4, h5, h6] at hg
  by_cases ha : e.allOk
  case neg => simp [generate, h1, h2, h3, h4, h5, h6, ha] at hg
  by_cases h8 : e.openRepoOk
  case neg => simp [generate, h1, h2, h3, h4, h5, h6, ha, h8] at hg
  by_cases h9 : e.headOk
  case neg => simp [generate, h1, h2, h3, h4, h5, h6, ha, h8, h9] at hg
  by_cases hlen : 7 ≤ e.head.length
  case neg =>
    have hs : goSliceTo e.head 7 = none := by
      unfold goSliceTo
      rw [if_neg hlen]
    simp [generate, h1, h2, h3, h4, h5, h6, ha, h8, h9, hs] at hg
  have hs : goSliceTo e.head 7 = some (String.mk (e.head.data.take 7)) := by
    simp [goSliceTo, hlen]
  by_cases h10 : e.writeLocalOk
  case neg =>
    simp [generate, h1, h2, h3, h4, h5, h6, ha, h8, h9, h10, hs] at hg
  have hgen := generate_genOk_eq e w
    ⟨h1, h2, h3, h4, h5, h6, ha, h8, h9, h10⟩ hlen
  rw [hgen] at hg ⊢
  simp at hg
  exact ⟨rfl, hg.symm⟩

/-- Claim C1: the removal of any pre-existing local report and the local
write both happen strictly before the credential check and before any
repository mutation — the run trace splits into a mutation-free first part
holding the local write, followed by a part opening with the credential
lookup — and the final local file content is unchanged under any change to
the credential or to the outcomes of the publication steps. -/
theorem local_write_before_publication (e : Env) (w : World) :
    (∃ t1 t2, (run e w).trace = t1 ++ t2 ∧
      (∀ ev ∈ t1, ev.isRepoMutation = false ∧ ev ≠ Event.lookupToken) ∧
      (t2 = [] ∨ (t2.head? = some Event.lookupToken ∧
        Event.removeLocalFile (filepathJoin e.outputPath reportFileName) ∈ t1 ∧
        Event.writeLocalFile (filepathJoin e.outputPath reportFileName)
          (reportContent e) ∈ t1))) ∧
    (∀ tok cb co wr ad cm pu rs,
      (run (setPublication e tok cb co wr ad cm pu rs) w).world.localFile =
        (run e w).world.localFile) := by
  constructor
  · cases hg : (generate e w).2.2 with
    | failure m =>
      refine ⟨(run e w).trace, [], by simp, ?_, Or.inl rfl⟩
      rw [run_eq_failure e w m hg]
      intro ev hev
      exact event_not_publisher ev (generate_events_not_publisher e w ev hev)
    | oob =>
      refine ⟨(run e w).trace, [], by simp, ?_, Or.inl rfl⟩
      rw [run_eq_oob e w hg]
      intro ev hev
      exact event_not_publisher ev (generate_events_not_publisher e w ev hev)
    | success c =>
      obtain ⟨htr, hc⟩ := generate_success_inv e w c hg
      refine ⟨(generate e w).1, (publish e (generate e w).2.1 c).1, ?_, ?_,
        Or.inr ⟨publish_head e _ c, ?_, ?_⟩⟩
      · rw [run_eq_success e w c hg]
      · intro ev hev
        exact event_not_publisher ev (generate_events_not_publisher e w ev hev)
      · rw [htr]
        simp [genTrace]
      · rw [htr, ← hc]
        simp [genTrace, hc]
  · intro tok cb co wr ad cm pu rs
    rw [run_localFile_eq, run_localFile_eq]
    rfl

/-- Claim C1 witness: in the all-success run the trace splits around the
credential check, and erasing the credential together with failing every
publication step leaves the local file identical. -/
theorem local_write_before_publication_witness :
    (∃ t1 t2, (run envAllOk worldMain).trace = t1 ++ t2 ∧
      (∀ ev ∈ t1, ev.isRepoMutation = false ∧ ev ≠ Event.lookupToken) ∧
      (t2 = [] ∨ (t2.head? = some Event.lookupToken ∧
        Event.removeLocalFile
          (filepathJoin envAllOk.outputPath reportFileName) ∈ t1 ∧
        Event.writeLocalFile
          (filepathJoin envAllOk.outputPath reportFileName)
          (reportContent envAllOk) ∈ t1))) ∧
    (run (setPublication envAllOk none false false false false false false
        false) worldMain).world.localFile =
      (run envAllOk worldMain).world.localFile :=
  ⟨(local_write_before_publication envAllOk worldMain).1,
   (local_write_before_publication envAllOk worldMain).2 none false false
     false false false false false⟩

theorem publish_checkout_restore (e : Env) (w : World) (c t : String)
    (htok : e.token = some t) (ht : t ≠ "") (hcb : e.currentBranchOk = true)
    (hco : e.checkoutOk = true) :
    (∃ l, (publish e w c).1 = l ++ [Event.checkout w.branch]) ∧
    (e.restoreOk = true → (publish e w c).2.1.branch = w.branch) := by
  simp only [publish, restoreBranch, htok, hcb, hco]
  constructor
  · exact ⟨[Event.lookupToken, Event.readCurrentBranch,
      Event.checkout ghPagesBranch] ++
      (publishAfterCheckout e { w with branch := ghPagesBranch } c).1,
      by simp [ht]⟩
  · intro hr
    simp [ht, hr]

/-- Claim C2 counterexample: with every step succeeding except the deferred
restoring checkout, the run returns success yet the repository is left on
`gh-pages` instead of the captured branch `main` — the claim's equality of
branches fails on this exit path. -/
theorem branch_restoration_cex :
    (run envRestoreFail worldMain).outcome = .ok ∧
    worldMain.branch = "main" ∧
    (run envRestoreFail worldMain).world.branch = "gh-pages" := by decide

/-- Claim C2 (amended): once the `gh-pages` checkout has succeeded, the
restoring checkout of the captured branch is the final recorded action on
every exit path — whatever the outcomes of the file write, stage, commit
and push — and whenever that restoring checkout itself succeeds the final
branch equals the captured branch. -/
theorem branch_restoration (e : Env) (w : World) (t : String) (hg : GenOk e)
    (h7 : 7 ≤ e.head.length) (htok : e.token = some t) (ht : t ≠ "")
    (hcb : e.currentBranchOk = true) (hco : e.checkoutOk = true) :
    (∃ l, (run e w).trace = l ++ [Event.checkout w.branch]) ∧
    (e.restoreOk = true → (run e w).world.branch = w.branch) := by
  rw [run_genOk_eq e w hg h7]
  have hp := publish_checkout_restore e (genWorld e w) (reportContent e) t
    htok ht hcb hco
  constructor
  · obtain ⟨l, hl⟩ := hp.1
    refine ⟨genTrace e ++ l, ?_⟩
    show genTrace e ++ (publish e (genWorld e w) (reportContent e)).1 = _
    rw [hl, List.append_assoc]
    rfl
  · intro hr
    have hb := hp.2 hr
    exact hb

/-- Claim C2 witness (amended claim): in a run where the commit step fails
after a successful checkout, the trace still ends with the restoring
checkout of `main` and the final branch is `main`. -/
theorem branch_restoration_witness :
    (∃ l, (run envCommitFail worldMain).trace =
      l ++ [Event.checkout worldMain.branch]) ∧
    (run envCommitFail worldMain).world.branch = worldMain.branch :=
  ⟨(branch_restoration envCommitFail worldMain "tok" (by decide) (by decide)
      rfl (by decide) rfl rfl).1,
   (branch_restoration envCommitFail worldMain "tok" (by decide) (by decide)
      rfl (by decide) rfl rfl).2 rfl⟩

/-- Claim C10: when every publication step succeeds but the deferred
restoring checkout fails, its error is assigned to a discarded local
variable, so `run` still returns nil — the outcome is success — and the
repository is left on `gh-pages`. -/
theorem restore_failure_not_surfaced (e : Env) (w : World) (t : String)
    (hg : GenOk e) (h7 : 7 ≤ e.head.length) (htok : e.token = some t)
    (ht : t ≠ "") (hcb : e.currentBranchOk = true)
    (hco : e.checkoutOk = true) (hwr : e.writeRepoOk = true)
    (had : e.addOk = true) (hcm : e.commitOk = true) (hpu : e.pushOk = true)
    (hre : e.restoreOk = false) :
    (run e w).outcome = .ok ∧ (run e w).world.branch = ghPagesBranch := by
  rw [run_genOk_eq e w hg h7]
  simp [publish, publishAfterCheckout, restoreBranch, htok, ht, hcb, hco,
    hwr, had, hcm, hpu, hre]

/-- Claim C10 witness: the concrete all-success run with a failing restore
exits successfully while leaving the repository on `gh-pages`. -/
theorem restore_failure_not_surfaced_witness :
    (run envRestoreFail worldMain).outcome = .ok ∧
    (run envRestoreFail worldMain).world.branch = ghPagesBranch :=
  restore_failure_not_surfaced envRestoreFail worldMain "tok" (by decide)
    (by decide) rfl (by decide) rfl rfl rfl rfl rfl rfl rfl

/-- Claim C3 counterexample: with `GITHUB_TOKEN` set to the empty string but
a failing local write, the process terminates with a fatal error — a
nonzero exit — so the claimed zero exit does not hold regardless of the
local-write outcome. -/
theorem empty_token_zero_exit_cex :
    envEmptyTokenWriteFail.token = some "" ∧
    (run envEmptyTokenWriteFail worldMain).outcome = .fatal "writing report" ∧
    (run envEmptyTokenWriteFail worldMain).outcome ≠ .exitedZero := by decide

/-- Claim C3 (amended): whenever the credential is unset or empty, no
repository mutation is ever attempted and the branch, commits, staged files
and pushed branches are unchanged, regardless of the local-write outcome;
and when the pipeline reaches the credential check — every generation step
including the local write succeeded — the process exits with status zero. -/
theorem empty_token_behavior (e : Env) (w : World)
    (htok : e.token = none ∨ e.token = some "") :
    ((run e w).world.branch = w.branch ∧
     (run e w).world.commits = w.commits ∧
     (run e w).world.stagedFiles = w.stagedFiles ∧
     (run e w).world.pushedBranches = w.pushedBranches ∧
     ∀ ev ∈ (run e w).trace, ev.isRepoMutation = false) ∧
    (GenOk e → 7 ≤ e.head.length → (run e w).outcome = .exitedZero) := by
  constructor
  · cases hg : (generate e w).2.2 with
    | failure m =>
      rw [run_eq_failure e w m hg]
      obtain ⟨hb, hc, hst, hp⟩ := generate_repo_frame e w
      refine ⟨hb, hc, hst, hp, ?_⟩
      intro ev hev
      exact (event_not_publisher ev
        (generate_events_not_publisher e w ev hev)).1
    | oob =>
      rw [run_eq_oob e w hg]
      obtain ⟨hb, hc, hst, hp⟩ := generate_repo_frame e w
      refine ⟨hb, hc, hst, hp, ?_⟩
      intro ev hev
      exact (event_not_publisher ev
        (generate_events_not_publisher e w ev hev)).1
    | success c =>
      rw [run_eq_success e w c hg, publish_emptyToken e _ c htok]
      obtain ⟨hb, hc, hst, hp⟩ := generate_repo_frame e w
      refine ⟨hb, hc, hst, hp, ?_⟩
      intro ev hev
      rcases List.mem_append.mp hev with h | h
      · exact (event_not_publisher ev
          (generate_events_not_publisher e w ev h)).1
      · simp only [List.mem_singleton] at h
        subst h
        rfl
  · intro hgok h7
    rw [run_genOk_eq e w hgok h7, publish_emptyToken e _ _ htok]

/-- Claim C3 witness: with an empty credential and all generation steps
succeeding, the run exits zero and the repository state is untouched. -/
theorem empty_token_behavior_witness :
    ((run envEmptyToken worldMain).world.branch = worldMain.branch ∧
     (run envEmptyToken worldMain).world.commits = worldMain.commits ∧
     (run envEmptyToken worldMain).world.stagedFiles = worldMain.stagedFiles ∧
     (run envEmptyToken worldMain).world.pushedBranches =
       worldMain.pushedBranches ∧
     ∀ ev ∈ (run envEmptyToken worldMain).trace,
       ev.isRepoMutation = false) ∧
    (run envEmptyToken worldMain).outcome = .exitedZero :=
  ⟨(empty_token_behavior envEmptyToken worldMain (Or.inr rfl)).1,
   (empty_token_behavior envEmptyToken worldMain (Or.inr rfl)).2 (by decide)
     (by decide)⟩

/-- Claim C4 counterexample: a fully successful run ends with the temporary
module-list file still present — the pipeline never deletes it on any exit
path, relying on OS temp-directory cleanup instead. -/
theorem temp_file_not_deleted :
    (run envAllOk worldMain).outcome = .ok ∧
    (run envAllOk worldMain).world.tempFile = some ("modules-1", "mods") := by
  decide

/-- Claim C4 (amended): once the temporary file holding the structured
dependency list has been created, it persists to the end of the run on
every exit path — no step of the pipeline removes it. -/
theorem temp_file_persists (e : Env) (w : World) (h1 : e.mkdirOk = true)
    (h2 : e.setenvOk = true) (h3 : e.listOk = true)
    (h4 : e.createTempOk = true) :
    ((run e w).world.tempFile).isSome = true := by
  rw [run_tempFile_eq]
  by_cases h5 : e.writeTempOk
  case neg => simp [generate, h1, h2, h3, h4, h5]
  by_cases h6 : e.outdatedOk
  case neg => simp [generate, h1, h2, h3, h4, h5, h6]
  by_cases ha : e.allOk
  case neg => simp [generate, h1, h2, h3, h4, h5, h6, ha]
  by_cases h8 : e.openRepoOk
  case neg => simp [generate, h1, h2, h3, h4, h5, h6, ha, h8]
  by_cases h9 : e.headOk
  case neg => simp [generate, h1, h2, h3, h4, h5, h6, ha, h8, h9]
  by_cases hlen : 7 ≤ e.head.length
  case neg =>
    have hs : goSliceTo e.head 7 = none := by
      unfold goSliceTo
      rw [if_neg hlen]
    simp [generate, h1, h2, h3, h4, h5, h6, ha, h8, h9, hs]
  have hs : goSliceTo e.head 7 = some (String.mk (e.head.data.take 7)) := by
    simp [goSliceTo, hlen]
  by_cases h10 : e.writeLocalOk
  case neg => simp [generate, h1, h2, h3, h4, h5, h6, ha, h8, h9, h10, hs]
  simp [generate, h1, h2, h3, h4, h5, h6, ha, h8, h9, h10, hs]

/-- Claim C4 witness: in the all-success run the temporary file is present
in the final state. -/
theorem temp_file_persists_witness :
    ((run envAllOk worldMain).world.tempFile).isSome = true :=
  temp_file_persists envAllOk worldMain rfl rfl rfl rfl

/-- Claim C8: with the credential present, the publisher proceeds in the
exact order capture branch, checkout `gh-pages`, overwrite the canonical
`dependencies.md`, stage it, commit with the fixed message, push — each
failure aborting all later steps except the deferred branch restoration,
which runs on every path after a successful checkout. -/
theorem publisher_sequence (e : Env) (w : World) (t : String) (hg : GenOk e)
    (h7 : 7 ≤ e.head.length) (htok : e.token = some t) (ht : t ≠ "") :
    (e.currentBranchOk = false →
      (run e w).trace = genTrace e ++
        [Event.lookupToken, Event.readCurrentBranch] ∧
      (run e w).outcome = .fatal "get current branch" ∧
      (run e w).world.branch = w.branch ∧
      (run e w).world.commits = w.commits) ∧
    (e.currentBranchOk = true → e.checkoutOk = false →
      (run e w).trace = genTrace e ++
        [Event.lookupToken, Event.readCurrentBranch,
         Event.checkout ghPagesBranch] ∧
      (run e w).outcome = .fatal ("checkout " ++ ghPagesBranch ++ " branch") ∧
      (run e w).world.branch = w.branch ∧
      (run e w).world.commits = w.commits) ∧
    (e.currentBranchOk = true → e.checkoutOk = true → e.writeRepoOk = false →
      (run e w).trace = genTrace e ++
        [Event.lookupToken, Event.readCurrentBranch,
         Event.checkout ghPagesBranch, Event.writeRepoFile reportFileName
           (reportContent e), Event.checkout w.branch] ∧
      (run e w).outcome = .fatal "write content to file" ∧
      (run e w).world.commits = w.commits) ∧
    (e.currentBranchOk = true → e.checkoutOk = true → e.writeRepoOk = true →
     e.addOk = false →
      (run e w).trace = genTrace e ++
        [Event.lookupToken, Event.readCurrentBranch,
         Event.checkout ghPagesBranch, Event.writeRepoFile reportFileName
           (reportContent e), Event.gitAdd reportFileName,
         Event.checkout w.branch] ∧
      (run e w).outcome = .fatal "add file to repo" ∧
      (run e w).world.commits = w.commits) ∧
    (e.currentBranchOk = true → e.checkoutOk = true → e.writeRepoOk = true →
     e.addOk = true → e.commitOk = false →
      (run e w).trace = genTrace e ++
        [Event.lookupToken, Event.readCurrentBranch,
         Event.checkout ghPagesBranch, Event.writeRepoFile reportFileName
           (reportContent e), Event.gitAdd reportFileName,
         Event.gitCommit "Update dependency report",
         Event.checkout w.branch] ∧
      (run e w).outcome = .fatal "commit" ∧
      (run e w).world.commits = w.commits) ∧
    (e.currentBranchOk = true → e.checkoutOk = true → e.writeRepoOk = true →
     e.addOk = true → e.commitOk = true → e.pushOk = false →
      (run e w).trace = genTrace e ++
        [Event.lookupToken, Event.readCurrentBranch,
         Event.checkout ghPagesBranch, Event.writeRepoFile reportFileName
           (reportContent e), Event.gitAdd reportFileName,
         Event.gitCommit "Update dependency report",
         Event.gitPush ghPagesBranch, Event.checkout w.branch] ∧
      (run e w).outcome = .fatal "push changes" ∧
      (run e w).world.commits = "Update dependency report" :: w.commits ∧
      (run e w).world.pushedBranches = w.pushedBranches) ∧
    (e.currentBranchOk = true → e.checkoutOk = true → e.writeRepoOk = true →
     e.addOk = true → e.commitOk = true → e.pushOk = true →
      (run e w).trace = genTrace e ++
        [Event.lookupToken, Event.readCurrentBranch,
         Event.checkout ghPagesBranch, Event.writeRepoFile reportFileName
           (reportContent e), Event.gitAdd reportFileName,
         Event.gitCommit "Update dependency report",
         Event.gitPush ghPagesBranch, Event.checkout w.branch] ∧
      (run e w).outcome = .ok ∧
      (run e w).world.commits = "Update dependency report" :: w.commits ∧
      (run e w).world.pushedBranches = ghPagesBranch :: w.pushedBranches ∧
      (run e w).world.repoFile = some (reportContent e)) := by
  rw [run_genOk_eq e w hg h7]
  refine ⟨fun hcb => ?_, fun hcb hco => ?_, fun hcb hco hwr => ?_,
    fun hcb hco hwr had => ?_, fun hcb hco hwr had hcm => ?_,
    fun hcb hco hwr had hcm hpu => ?_, fun hcb hco hwr had hcm hpu => ?_⟩
  all_goals
    simp [publish, publishAfterCheckout, restoreBranch, genWorld, htok, ht,
      hcb, apply_ite, *]

/-- Claim C8 witness: with a failing commit the run performs exactly the
capture, checkout, write, stage and failing commit, restores `main`, and
creates no commit. -/
theorem publisher_sequence_witness :
    (run envCommitFail worldMain).trace = genTrace envCommitFail ++
      [Event.lookupToken, Event.readCurrentBranch,
       Event.checkout ghPagesBranch, Event.writeRepoFile reportFileName
         (reportContent envCommitFail), Event.gitAdd reportFileName,
       Event.gitCommit "Update dependency report",
       Event.checkout worldMain.branch] ∧
    (run envCommitFail worldMain).outcome = .fatal "commit" ∧
    (run envCommitFail worldMain).world.commits = worldMain.commits :=
  (publisher_sequence envCommitFail worldMain "tok" (by decide) (by decide)
    rfl (by decide)).2.2.2.2.1 rfl rfl rfl rfl rfl
